import Mathlib

/-!
Verification of the connection state machine and USB discovery logic of the
node-adb-client host-side ADB implementation.  The definitions below are a
shallow embedding of src/adb.js (class ADB) together with models, taken from
the specification and the unit tests, of the few lib/ helpers the repository
does not ship under src/.
-/

namespace NodeAdb

/- The five connection states of src/adb.js lines 7-11.  The source encodes
them as plain integers, so the embedding does too; any other number is the
"unrecognised state" handled by the default arm of the switch. -/

def NOT_CONNECTED : Nat := 0

def WAIT_FOR_AUTH : Nat := 1

def SEND_PRIVATE_KEY : Nat := 2

def SEND_PUBLIC_KEY : Nat := 3

def CONNECTED : Nat := 4

/-- Modelled from the spec: lib/constants.js is not under src/.  Spec section 3
gives the ADB command words as exact 32-bit ASCII values and the AUTH
sub-types TOKEN=1, SIGNATURE=2, RSAPUBLICKEY=3. -/
def CMD_CNXN : Nat := 0x4E584E43

def CMD_AUTH : Nat := 0x48545541

def CMD_OPEN : Nat := 0x4E45504F

def CMD_OKAY : Nat := 0x59414B4F

def CMD_CLSE : Nat := 0x45534C43

def CMD_WRTE : Nat := 0x45545257

def AUTH_TOKEN : Nat := 1

def AUTH_SIGNATURE : Nat := 2

def AUTH_RSAPUBLICKEY : Nat := 3

/-- An ADB message as the code sees it after parsing: command word, the two
argument words and the payload bytes. -/
structure Msg where
  command : Nat
  arg0 : Nat
  arg1 : Nat
  data : List Nat
deriving Repr, DecidableEq

/-- A thrown JavaScript error as inspected by src/adb.js: the catch blocks
only look at e.errno (strict comparison with 2, the libusb timeout), so the
model keeps the optional errno and the message text. -/
structure JsError where
  errno : Option Nat
  message : String
deriving Repr, DecidableEq

/-- The check e.errno === 2 performed by every catch block of connect(). -/
def isTimeout (e : JsError) : Bool := e.errno == some 2

/-- The TypeError raised by a property access on undefined; it carries no
errno. -/
def jsTypeError : JsError := ⟨none, "TypeError: cannot read properties of undefined"⟩

/-- Result of one awaited device call: either a value or a thrown error. -/
inductive CallResult (α : Type) where
  | ok (a : α)
  | exn (e : JsError)
deriving Repr, DecidableEq

/-- The JavaScript variable `let packet` of connect(): initially undefined,
set to `false` when waitForAuth rejects the message, or to the received
packet. -/
inductive PktVar where
  | undef
  | fls
  | pkt (m : Msg)
deriving Repr, DecidableEq

/-- The device calls one iteration of the connect() loop can make, with their
outcomes.  waitForAuth resolves to `false` (none) or a packet;
sendSignedToken receives packet.data, which is undefined (none) when the
packet variable does not hold a packet. -/
structure DevOracle where
  initConnection : CallResult Unit
  waitForAuth : CallResult (Option Msg)
  sendSignedToken : Option (List Nat) → CallResult Bool
  sendPublicKey : CallResult Bool

/-- Outcome of one iteration of the while loop of connect(): continue with a
new state (and packet variable), return to the caller, or propagate a thrown
error. -/
inductive StepOut where
  | next (state : Nat) (pv : PktVar)
  | ret (state : Nat)
  | thrown (e : JsError)
deriving Repr, DecidableEq

/-- One iteration of the switch statement of ADB.connect, src/adb.js lines
98-163.  The state is the integer this.state; pv is the `packet` variable.
Each case mirrors the source: NOT_CONNECTED awaits initConnection with no
try/catch; WAIT_FOR_AUTH, SEND_PRIVATE_KEY and SEND_PUBLIC_KEY catch errors
and swallow exactly errno === 2, rethrowing everything else; CONNECTED
returns; the default arm resets to NOT_CONNECTED. -/
def connectStep (o : DevOracle) (st : Nat) (pv : PktVar) : StepOut :=
  if st = 0 then
    match o.initConnection with
    | CallResult.ok _ => StepOut.next 1 pv
    | CallResult.exn e => StepOut.thrown e
  else if st = 1 then
    match o.waitForAuth with
    | CallResult.ok none => StepOut.next 0 PktVar.fls
    | CallResult.ok (some p) => StepOut.next 2 (PktVar.pkt p)
    | CallResult.exn e => if isTimeout e then StepOut.next 0 pv else StepOut.thrown e
  else if st = 2 then
    match pv with
    | PktVar.undef =>
      if isTimeout jsTypeError then StepOut.next 0 pv else StepOut.thrown jsTypeError
    | PktVar.fls =>
      match o.sendSignedToken none with
      | CallResult.ok true => StepOut.next 4 pv
      | CallResult.ok false => StepOut.next 3 pv
      | CallResult.exn e => if isTimeout e then StepOut.next 0 pv else StepOut.thrown e
    | PktVar.pkt p =>
      match o.sendSignedToken (some p.data) with
      | CallResult.ok true => StepOut.next 4 pv
      | CallResult.ok false => StepOut.next 3 pv
      | CallResult.exn e => if isTimeout e then StepOut.next 0 pv else StepOut.thrown e
  else if st = 3 then
    match o.sendPublicKey with
    | CallResult.ok true => StepOut.next 4 pv
    | CallResult.ok false => StepOut.next 0 pv
    | CallResult.exn e => if isTimeout e then StepOut.next 0 pv else StepOut.thrown e
  else if st = 4 then
    StepOut.ret 4
  else
    StepOut.next 0 pv

/-- Outcome of running the connect() loop with a finite supply of per
iteration oracles: a normal return (with the state at that moment), a thrown
error, or running out of supplied iterations while the loop is still going. -/
inductive ConnectOutcome where
  | returned (st : Nat)
  | threw (e : JsError)
  | fuelOut (st : Nat) (pv : PktVar)
deriving Repr, DecidableEq

/-- The while(1) loop of connect(), one oracle per iteration. -/
def connectRun : List DevOracle → Nat → PktVar → ConnectOutcome
  | [], st, pv => ConnectOutcome.fuelOut st pv
  | o :: os, st, pv =>
    match connectStep o st pv with
    | StepOut.next s q => connectRun os s q
    | StepOut.ret s => ConnectOutcome.returned s
    | StepOut.thrown e => ConnectOutcome.threw e

/-- Modelled from the spec: waitForAuth lives in lib/adb-device.js, which is
not shipped under src/; src/adb.js only observes its return value, `false` or
the received packet.  Spec section 4.4 says that in WAIT_FOR_AUTH a received
AUTH(TOKEN, *, token) advances the handshake carrying the token and that any
other message does not, so the model returns the received message exactly
when it is an AUTH with arg0 = TOKEN and `false` (none) otherwise. -/
def waitForAuthModel (m : Msg) : Option Msg :=
  if m.command = CMD_AUTH ∧ m.arg0 = AUTH_TOKEN then some m else none

/-- An oracle for one connect() iteration in which the device sends the
message m while the host waits in WAIT_FOR_AUTH; the other calls are inert. -/
def recvOracle (m : Msg) : DevOracle :=
  ⟨CallResult.ok (), CallResult.ok (waitForAuthModel m), fun _ => CallResult.ok false,
    CallResult.ok false⟩

/-- Modelled from the spec and the unit tests (src/test/unit/adb-device-specs.js
lines 180-203): sendPublicKey of lib/adb-device.js is not under src/.  It
sends one AUTH message with arg0 = RSAPUBLICKEY and arg1 = 0 carrying the
public key, receives one reply and resolves to true exactly when the reply
command is CNXN.  The model returns the sent message and that boolean. -/
def sendPublicKeyModel (pubkey : List Nat) (reply : Msg) : Msg × Bool :=
  (⟨CMD_AUTH, AUTH_RSAPUBLICKEY, 0, pubkey⟩, reply.command == CMD_CNXN)

/-- An oracle for one connect() iteration in which the host is in
SEND_PUBLIC_KEY and the device answers with the message reply. -/
def pubKeyOracle (pubkey : List Nat) (reply : Msg) : DevOracle :=
  ⟨CallResult.ok (), CallResult.ok none, fun _ => CallResult.ok false,
    CallResult.ok (sendPublicKeyModel pubkey reply).2⟩

/-- Modelled from the spec and the unit tests (src/test/unit/adb-device-specs.js
lines 40-67): sendAndOkay of lib/adb-device.js is not under src/.  It sends
the given message, receives one reply, rejects with an error naming the
received command when that command is not OKAY, and returns the reply packet
when it is. -/
def sendAndOkay (cmd arg0 arg1 : Nat) (payload : List Nat) (reply : Msg) :
    Except String Msg :=
  if reply.command = CMD_OKAY then Except.ok reply
  else Except.error ("Did not receive OKAY, received command: " ++ toString reply.command)

/-- Modelled from the spec: the OKAY-gated write loop of the stream engine
(spec section 4.5).  Each payload is sent as a WRTE through sendAndOkay and
the next WRTE is issued only when the previous reply was OKAY.  replies k is
the k-th reply off the wire; the cursor k counts WRTE packets sent so far and
the function returns the total number sent. -/
def writeLoopCount (localId remoteId : Nat) (replies : Nat → Msg) :
    List (List Nat) → Nat → Nat
  | [], k => k
  | p :: ps, k =>
    match sendAndOkay CMD_WRTE localId remoteId p (replies k) with
    | Except.ok _ => writeLoopCount localId remoteId replies ps (k + 1)
    | Except.error _ => k + 1

deriving instance DecidableEq for Except

/-- The error thrown by ADB.runCommand when the state is not CONNECTED,
src/adb.js line 171. -/
def notConnectedError : JsError :=
  ⟨none, "State is not CONNECTED, cannot run a command."⟩

/-- Result of ADB.runCommand: what it returns or throws, the state it leaves
behind, and whether device.open was invoked at all. -/
structure RunResult where
  result : Except JsError String
  finalState : Nat
  dispatched : Bool
deriving Repr, DecidableEq

/-- ADB.runCommand, src/adb.js lines 166-174: the command is dispatched to
device.open only when this.state is CONNECTED; otherwise an error is thrown
and nothing touches the device.  openResult is the outcome device.open would
produce if called. -/
def runCommand (st : Nat) (openResult : CallResult String) : RunResult :=
  if st = 4 then
    match openResult with
    | CallResult.ok out => ⟨Except.ok out, st, true⟩
    | CallResult.exn e => ⟨Except.error e, st, true⟩
  else
    ⟨Except.error notConnectedError, st, false⟩

/- USB discovery, src/adb.js lines 40-92. -/

/-- Modelled from the spec: lib/constants.js is not under src/.  Spec
sections 4.1 and 6 give the ADB interface descriptor values. -/
def ADB_CLASS : Nat := 0xFF

def ADB_SUBCLASS : Nat := 0x42

def ADB_PROTOCOL : Nat := 0x01

/-- A USB endpoint; _getAdbInterface only counts them. -/
structure Endpoint where
  direction : Nat
deriving Repr, DecidableEq

/-- The part of a USB interface descriptor inspected by _getAdbInterface. -/
structure IfaceDescriptor where
  bInterfaceClass : Nat
  bInterfaceSubClass : Nat
  bInterfaceProtocol : Nat
deriving Repr, DecidableEq

/-- A USB interface: its endpoints and its descriptor. -/
structure Iface where
  endpoints : List Endpoint
  descriptor : IfaceDescriptor
deriving Repr, DecidableEq

/-- The part of a USB device descriptor the discovery code reads. -/
structure DeviceDescriptor where
  idVendor : Nat
deriving Repr, DecidableEq

/-- A USB device as node-usb presents it to src/adb.js.  interfaces,
deviceDescriptor and configDescriptor may each be null (none).  serialNumber
stands for the string the USB control transfer of _getSerialNo would read;
that transfer itself is outside the embedded logic. -/
structure UsbDevice where
  interfaces : Option (List Iface)
  deviceDescriptor : Option DeviceDescriptor
  configDescriptor : Option Unit
  serialNumber : String
deriving Repr, DecidableEq

/-- The for-of loop over device.interfaces in _getAdbInterface, src/adb.js
lines 76-88: skip interfaces without exactly two endpoints, skip interfaces
whose descriptor is not the ADB class/subclass/protocol triple, return the
first remaining one. -/
def ifaceLoop : List Iface → Option Iface
  | [] => none
  | i :: rest =>
    if i.endpoints.length ≠ 2 then ifaceLoop rest
    else if i.descriptor.bInterfaceClass ≠ ADB_CLASS ∨
        i.descriptor.bInterfaceSubClass ≠ ADB_SUBCLASS ∨
        i.descriptor.bInterfaceProtocol ≠ ADB_PROTOCOL then ifaceLoop rest
    else some i

/-- ADB._getAdbInterface, src/adb.js lines 67-92: null when the device has no
interfaces, null when the device or config descriptor is null, otherwise the
first interface accepted by the loop. -/
def _getAdbInterface (d : UsbDevice) : Option Iface :=
  match d.interfaces with
  | none => none
  | some ifaces =>
    if d.deviceDescriptor.isSome ∧ d.configDescriptor.isSome then ifaceLoop ifaces
    else none

/-- An entry of the array returned by ADB.findAdbDevices. -/
structure FoundDevice where
  device : UsbDevice
  deviceInterface : Iface
  serialNumber : String
deriving Repr, DecidableEq

/-- The error of src/adb.js line 47. -/
def noUsbError : JsError := ⟨none, "No USB devices found."⟩

/-- The error of src/adb.js line 60. -/
def noAdbError : JsError := ⟨none, "No ADB devices found."⟩

/-- The for-of loop of ADB.findAdbDevices, src/adb.js lines 49-58, with the
vendor allow-list as a parameter (lib/constants.js, which holds
USB_VENDOR_IDS, is not under src/; the spec only says it is the published
Android-partner list).  Returns the devices that were probed with
_getAdbInterface and the ADB devices found.  Reading idVendor off a null
deviceDescriptor is a JavaScript TypeError, modelled as a thrown error. -/
def findLoop (vendorIds : List Nat) :
    List UsbDevice → Except JsError (List UsbDevice × List FoundDevice)
  | [] => Except.ok ([], [])
  | d :: ds =>
    match d.deviceDescriptor with
    | none => Except.error jsTypeError
    | some dd =>
      if dd.idVendor ∈ vendorIds then
        match findLoop vendorIds ds with
        | Except.error e => Except.error e
        | Except.ok (probed, found) =>
          match _getAdbInterface d with
          | some iface =>
            Except.ok (d :: probed, ⟨d, iface, d.serialNumber⟩ :: found)
          | none => Except.ok (d :: probed, found)
      else findLoop vendorIds ds

/-- ADB.findAdbDevices, src/adb.js lines 40-63: throw when the USB device
list is empty, collect the ADB devices among the allow-listed ones, throw
when none was found. -/
def findAdbDevices (vendorIds : List Nat) (usbDevices : List UsbDevice) :
    Except JsError (List FoundDevice) :=
  if usbDevices.length = 0 then Except.error noUsbError
  else
    match findLoop vendorIds usbDevices with
    | Except.error e => Except.error e
    | Except.ok (_, found) =>
      if found.length = 0 then Except.error noAdbError
      else Except.ok found

/- Concrete fixtures used by witnesses and counterexamples. -/

/-- A libusb transfer timeout as the transport raises it: errno 2. -/
def timeoutError : JsError := ⟨some 2, "LIBUSB_TRANSFER_TIMED_OUT"⟩

/-- A non-timeout transport error. -/
def fatalError : JsError := ⟨some 4, "LIBUSB_TRANSFER_NO_DEVICE"⟩

/-- A device AUTH challenge carrying a 20-byte token. -/
def authTokenMsg : Msg := ⟨CMD_AUTH, AUTH_TOKEN, 0, List.replicate 20 7⟩

/-- A device CNXN message. -/
def cnxnMsg : Msg := ⟨CMD_CNXN, 0x01000000, 4096, []⟩

/-- An OKAY reply on a stream. -/
def okayMsg : Msg := ⟨CMD_OKAY, 12345, 1, []⟩

/-- A CLSE reply on a stream. -/
def clseMsg : Msg := ⟨CMD_CLSE, 12345, 1, []⟩

/-- Oracle for an iteration in which the device stays silent in
SEND_PUBLIC_KEY and the receive times out. -/
def pubKeyTimeoutOracle : DevOracle :=
  ⟨CallResult.ok (), CallResult.ok none, fun _ => CallResult.ok false,
    CallResult.exn timeoutError⟩

/-- Oracle for an iteration of a fully successful handshake: initConnection
resolves, the device challenges with AUTH(TOKEN), accepts the signed token
and accepts the public key. -/
def happyOracle : DevOracle :=
  ⟨CallResult.ok (), CallResult.ok (some authTokenMsg), fun _ => CallResult.ok true,
    CallResult.ok true⟩

/-- Oracle for an iteration in which the receive in WAIT_FOR_AUTH times out. -/
def waitTimeoutOracle : DevOracle :=
  ⟨CallResult.ok (), CallResult.exn timeoutError, fun _ => CallResult.ok false,
    CallResult.ok false⟩

/-- Oracle for an iteration in which initConnection throws a fatal error. -/
def fatalInitOracle : DevOracle :=
  ⟨CallResult.exn fatalError, CallResult.ok none, fun _ => CallResult.ok false,
    CallResult.ok false⟩

/-! ## Claim C1 -/

/-- C1 counterexample: the claim says a Transport timeout in SEND_PUBLIC_KEY
surfaces a retryable PendingUserApproval error to the caller of connect().
On the code it does not: src/adb.js lines 148-155 catch errno 2, log, set the
state back to NOT_CONNECTED and re-enter the loop, so the iteration yields a
plain state transition and a run in which the device later approves returns
normally without the caller ever observing an error. -/
theorem c1_counterexample :
    connectStep pubKeyTimeoutOracle SEND_PUBLIC_KEY PktVar.undef =
      StepOut.next NOT_CONNECTED PktVar.undef ∧
    connectRun [pubKeyTimeoutOracle, happyOracle, happyOracle, happyOracle, happyOracle]
      SEND_PUBLIC_KEY PktVar.undef = ConnectOutcome.returned CONNECTED := by
  exact ⟨rfl, rfl⟩

/-- C1 (amended): when a Transport timeout (errno 2) occurs while the
connection FSM is in SEND_PUBLIC_KEY, connect() resets the FSM to
NOT_CONNECTED and silently re-enters the connection loop; no error of any
kind is surfaced to the caller for that timeout. -/
theorem c1_timeout_silently_resets (o : DevOracle) (pv : PktVar) (e : JsError)
    (hpk : o.sendPublicKey = CallResult.exn e) (ht : isTimeout e = true) :
    connectStep o SEND_PUBLIC_KEY pv = StepOut.next NOT_CONNECTED pv := by
  simp [connectStep, SEND_PUBLIC_KEY, NOT_CONNECTED, hpk, ht]

/-- C1 witness: the amended statement at the concrete timeout oracle. -/
theorem c1_witness :
    pubKeyTimeoutOracle.sendPublicKey = CallResult.exn timeoutError ∧
    isTimeout timeoutError = true ∧
    connectStep pubKeyTimeoutOracle SEND_PUBLIC_KEY PktVar.fls =
      StepOut.next NOT_CONNECTED PktVar.fls :=
  ⟨rfl, rfl, c1_timeout_silently_resets pubKeyTimeoutOracle PktVar.fls timeoutError rfl rfl⟩

/-! ## Claim C2 -/

/-- C2 counterexample: the claim says that a CNXN received in WAIT_FOR_AUTH
moves the FSM directly to CONNECTED.  On the code the WAIT_FOR_AUTH arm of
connect() (src/adb.js lines 105-122) only ever moves to SEND_PRIVATE_KEY
(packet received) or NOT_CONNECTED (waitForAuth returned false); with a CNXN
message the iteration lands in NOT_CONNECTED. -/
theorem c2_counterexample :
    connectStep (recvOracle cnxnMsg) WAIT_FOR_AUTH PktVar.undef =
      StepOut.next NOT_CONNECTED PktVar.fls ∧ NOT_CONNECTED ≠ CONNECTED := by
  exact ⟨rfl, by decide⟩

/-- C2 (amended): in WAIT_FOR_AUTH a received AUTH(TOKEN) advances the FSM to
SEND_PRIVATE_KEY with the packet stored; any other message, a CNXN included,
returns the FSM to NOT_CONNECTED.  Moreover no WAIT_FOR_AUTH iteration can
continue into any state other than NOT_CONNECTED or SEND_PRIVATE_KEY, so a
direct transition to CONNECTED is impossible for every oracle. -/
theorem c2_wait_for_auth_transitions (m : Msg) (pv : PktVar) :
    connectStep (recvOracle m) WAIT_FOR_AUTH pv =
      (if m.command = CMD_AUTH ∧ m.arg0 = AUTH_TOKEN then
        StepOut.next SEND_PRIVATE_KEY (PktVar.pkt m)
      else StepOut.next NOT_CONNECTED PktVar.fls) ∧
    (∀ o q s w, connectStep o WAIT_FOR_AUTH q = StepOut.next s w →
      s = NOT_CONNECTED ∨ s = SEND_PRIVATE_KEY) := by
  constructor
  · by_cases h : m.command = CMD_AUTH ∧ m.arg0 = AUTH_TOKEN <;>
      simp [connectStep, recvOracle, waitForAuthModel, WAIT_FOR_AUTH, SEND_PRIVATE_KEY,
        NOT_CONNECTED, h]
  · intro o q s w h
    simp only [connectStep, WAIT_FOR_AUTH] at h
    norm_num at h
    rcases ho : o.waitForAuth with a | e
    · rcases a with _ | p <;> rw [ho] at h <;> simp_all [NOT_CONNECTED, SEND_PRIVATE_KEY]
    · rw [ho] at h
      by_cases ht : isTimeout e <;> simp_all [NOT_CONNECTED]

/-- C2 witness: the amended statement at the concrete AUTH(TOKEN) and CNXN
messages. -/
theorem c2_witness :
    connectStep (recvOracle authTokenMsg) WAIT_FOR_AUTH PktVar.undef =
      (if authTokenMsg.command = CMD_AUTH ∧ authTokenMsg.arg0 = AUTH_TOKEN then
        StepOut.next SEND_PRIVATE_KEY (PktVar.pkt authTokenMsg)
      else StepOut.next NOT_CONNECTED PktVar.fls) ∧
    (NOT_CONNECTED = NOT_CONNECTED ∨ NOT_CONNECTED = SEND_PRIVATE_KEY) :=
  ⟨(c2_wait_for_auth_transitions authTokenMsg PktVar.undef).1,
    (c2_wait_for_auth_transitions cnxnMsg PktVar.undef).2 (recvOracle cnxnMsg) PktVar.undef
      NOT_CONNECTED PktVar.fls (by decide)⟩

/-! ## Claim C3 -/

/-- C3: in SEND_PUBLIC_KEY the host sends AUTH with sub-type RSAPUBLICKEY
(arg0 = 3, arg1 = 0) carrying the public key; the FSM moves to CONNECTED
exactly when the reply is CNXN, and on any reply whose command is not CNXN
sendPublicKey resolves to false and the FSM moves to NOT_CONNECTED
(src/adb.js lines 140-147 with the sendPublicKey model from the unit
tests). -/
theorem c3_send_public_key (pubkey : List Nat) (reply : Msg) (pv : PktVar) :
    (sendPublicKeyModel pubkey reply).1 = ⟨CMD_AUTH, AUTH_RSAPUBLICKEY, 0, pubkey⟩ ∧
    ((sendPublicKeyModel pubkey reply).2 = true ↔ reply.command = CMD_CNXN) ∧
    connectStep (pubKeyOracle pubkey reply) SEND_PUBLIC_KEY pv =
      (if reply.command = CMD_CNXN then StepOut.next CONNECTED pv
       else StepOut.next NOT_CONNECTED pv) := by
  refine ⟨rfl, by simp [sendPublicKeyModel], ?_⟩
  by_cases h : reply.command = CMD_CNXN
  · have hb : (reply.command == CMD_CNXN) = true := beq_iff_eq.mpr h
    simp [connectStep, pubKeyOracle, sendPublicKeyModel, SEND_PUBLIC_KEY, CONNECTED,
      NOT_CONNECTED, hb, h]
  · have hb : (reply.command == CMD_CNXN) = false := beq_eq_false_iff_ne.mpr h
    simp [connectStep, pubKeyOracle, sendPublicKeyModel, SEND_PUBLIC_KEY, CONNECTED,
      NOT_CONNECTED, hb, h]

/-! ## Claim C4 -/

/-- C4: in SEND_PRIVATE_KEY, when sendSignedToken resolves (no error was
thrown), the FSM moves to CONNECTED if it resolved true (device accepted the
signature with a CNXN) and to SEND_PUBLIC_KEY if it resolved false (device
sent AUTH again); these are the only two successor states of a non-error
iteration (src/adb.js lines 123-139). -/
theorem c4_send_private_key (o : DevOracle) (p : Msg) (b : Bool)
    (h : o.sendSignedToken (some p.data) = CallResult.ok b) :
    connectStep o SEND_PRIVATE_KEY (PktVar.pkt p) =
      (if b then StepOut.next CONNECTED (PktVar.pkt p)
       else StepOut.next SEND_PUBLIC_KEY (PktVar.pkt p)) ∧
    (∀ s q, connectStep o SEND_PRIVATE_KEY (PktVar.pkt p) = StepOut.next s q →
      s = CONNECTED ∨ s = SEND_PUBLIC_KEY) := by
  constructor
  · cases b <;>
      simp [connectStep, SEND_PRIVATE_KEY, CONNECTED, SEND_PUBLIC_KEY, h]
  · intro s q hs
    cases b <;>
      simp_all [connectStep, SEND_PRIVATE_KEY, CONNECTED, SEND_PUBLIC_KEY, h]

/-- C4 witness: the statement at a concrete accepting iteration. -/
theorem c4_witness :
    connectStep happyOracle SEND_PRIVATE_KEY (PktVar.pkt authTokenMsg) =
      (if true then StepOut.next CONNECTED (PktVar.pkt authTokenMsg)
       else StepOut.next SEND_PUBLIC_KEY (PktVar.pkt authTokenMsg)) ∧
    (∀ s q, connectStep happyOracle SEND_PRIVATE_KEY (PktVar.pkt authTokenMsg) =
      StepOut.next s q → s = CONNECTED ∨ s = SEND_PUBLIC_KEY) :=
  c4_send_private_key happyOracle authTokenMsg true rfl

/-! ## Claim C5 -/

/-- C5: a Transport timeout (errno 2) received in WAIT_FOR_AUTH or
SEND_PRIVATE_KEY returns the FSM to NOT_CONNECTED, and every error other
than a timeout raised in any connecting state (NOT_CONNECTED has no catch at
all, the three auth states rethrow anything whose errno is not 2) propagates
out of the iteration and hence out of connect() (src/adb.js lines 98-156). -/
theorem c5_timeouts_and_errors (e : JsError) :
    (∀ o pv, isTimeout e = true → o.waitForAuth = CallResult.exn e →
      connectStep o WAIT_FOR_AUTH pv = StepOut.next NOT_CONNECTED pv) ∧
    (∀ o p, isTimeout e = true → o.sendSignedToken (some p.data) = CallResult.exn e →
      connectStep o SEND_PRIVATE_KEY (PktVar.pkt p) =
        StepOut.next NOT_CONNECTED (PktVar.pkt p)) ∧
    (∀ o pv, o.initConnection = CallResult.exn e →
      connectStep o NOT_CONNECTED pv = StepOut.thrown e) ∧
    (∀ o pv, isTimeout e = false → o.waitForAuth = CallResult.exn e →
      connectStep o WAIT_FOR_AUTH pv = StepOut.thrown e) ∧
    (∀ o p, isTimeout e = false → o.sendSignedToken (some p.data) = CallResult.exn e →
      connectStep o SEND_PRIVATE_KEY (PktVar.pkt p) = StepOut.thrown e) ∧
    (∀ o pv, isTimeout e = false → o.sendPublicKey = CallResult.exn e →
      connectStep o SEND_PUBLIC_KEY pv = StepOut.thrown e) ∧
    (∀ o os st pv, connectStep o st pv = StepOut.thrown e →
      connectRun (o :: os) st pv = ConnectOutcome.threw e) := by
  refine ⟨?_, ?_, ?_, ?_, ?_, ?_, ?_⟩
  · intro o pv ht h
    simp [connectStep, WAIT_FOR_AUTH, NOT_CONNECTED, h, ht]
  · intro o p ht h
    simp [connectStep, SEND_PRIVATE_KEY, NOT_CONNECTED, h, ht]
  · intro o pv h
    simp [connectStep, NOT_CONNECTED, h]
  · intro o pv ht h
    simp [connectStep, WAIT_FOR_AUTH, h, ht]
  · intro o p ht h
    simp [connectStep, SEND_PRIVATE_KEY, h, ht]
  · intro o pv ht h
    simp [connectStep, SEND_PUBLIC_KEY, h, ht]
  · intro o os st pv h
    simp [connectRun, h]

/-- C5 witness: a concrete timeout in WAIT_FOR_AUTH resets the FSM and a
concrete fatal error in NOT_CONNECTED propagates out of the loop. -/
theorem c5_witness :
    connectStep waitTimeoutOracle WAIT_FOR_AUTH PktVar.undef =
      StepOut.next NOT_CONNECTED PktVar.undef ∧
    connectStep fatalInitOracle NOT_CONNECTED PktVar.undef = StepOut.thrown fatalError ∧
    connectRun [fatalInitOracle] NOT_CONNECTED PktVar.undef =
      ConnectOutcome.threw fatalError :=
  ⟨(c5_timeouts_and_errors timeoutError).1 waitTimeoutOracle PktVar.undef rfl rfl,
    (c5_timeouts_and_errors fatalError).2.2.1 fatalInitOracle PktVar.undef rfl,
    (c5_timeouts_and_errors fatalError).2.2.2.2.2.2 fatalInitOracle [] NOT_CONNECTED
      PktVar.undef ((c5_timeouts_and_errors fatalError).2.2.1 fatalInitOracle PktVar.undef rfl)⟩

/-! ## Claim C6 -/

/-- Once some reply in the stream is not an OKAY, the OKAY-gated write loop
issues no WRTE beyond the one that provoked it: at most j + 1 packets are
sent in total when the j-th reply is the offending one. -/
lemma writeLoopCount_le (localId remoteId : Nat) (replies : Nat → Msg)
    (ps : List (List Nat)) (k j : Nat) (hkj : k ≤ j)
    (hj : (replies j).command ≠ CMD_OKAY) :
    writeLoopCount localId remoteId replies ps k ≤ j + 1 := by
  induction ps generalizing k with
  | nil =>
    simpa [writeLoopCount] using Nat.le_succ_of_le hkj
  | cons p ps ih =>
    by_cases h : (replies k).command = CMD_OKAY
    · have hk : k ≠ j := fun hkeq => hj (hkeq ▸ h)
      have : writeLoopCount localId remoteId replies (p :: ps) k =
          writeLoopCount localId remoteId replies ps (k + 1) := by
        simp [writeLoopCount, sendAndOkay, h]
      rw [this]
      exact ih (k + 1) (Nat.lt_of_le_of_ne hkj hk)
    · have : writeLoopCount localId remoteId replies (p :: ps) k = k + 1 := by
        simp [writeLoopCount, sendAndOkay, h]
      omega

/-- C6: after a WRTE the next received message must be an OKAY — sendAndOkay
returns the reply packet when its command is OKAY and rejects with an error
naming the received command otherwise; consequently the OKAY-gated write loop
never issues a second WRTE before the previous one has been acknowledged:
when the j-th reply off the wire is not OKAY, at most j + 1 WRTE packets are
ever sent. -/
theorem c6_send_and_okay (cmd a0 a1 : Nat) (payload : List Nat) (reply : Msg) :
    (reply.command = CMD_OKAY → sendAndOkay cmd a0 a1 payload reply = Except.ok reply) ∧
    (reply.command ≠ CMD_OKAY → sendAndOkay cmd a0 a1 payload reply =
      Except.error ("Did not receive OKAY, received command: " ++ toString reply.command)) ∧
    (∀ localId remoteId replies ps k j, k ≤ j → (replies j).command ≠ CMD_OKAY →
      writeLoopCount localId remoteId replies ps k ≤ j + 1) := by
  refine ⟨?_, ?_, ?_⟩
  · intro h
    simp [sendAndOkay, h]
  · intro h
    simp [sendAndOkay, h]
  · intro localId remoteId replies ps k j hkj hj
    exact writeLoopCount_le localId remoteId replies ps k j hkj hj

/-- C6 witness: the contract at a concrete OKAY reply, a concrete CLSE reply,
and a write loop of three payloads cut short by a non-OKAY first reply. -/
theorem c6_witness :
    sendAndOkay CMD_WRTE 1 12345 [116] okayMsg = Except.ok okayMsg ∧
    sendAndOkay CMD_WRTE 1 12345 [116] clseMsg =
      Except.error ("Did not receive OKAY, received command: " ++ toString clseMsg.command) ∧
    writeLoopCount 1 12345 (fun _ => clseMsg) [[1], [2], [3]] 0 ≤ 1 :=
  ⟨(c6_send_and_okay CMD_WRTE 1 12345 [116] okayMsg).1 (by decide),
    (c6_send_and_okay CMD_WRTE 1 12345 [116] clseMsg).2.1 (by decide),
    (c6_send_and_okay CMD_WRTE 1 12345 [116] clseMsg).2.2 1 12345 (fun _ => clseMsg)
      [[1], [2], [3]] 0 0 (Nat.le_refl 0) (by decide)⟩

/-! ## Claim C7 -/

/-- C7: runCommand dispatches the command to device.open exactly when the
connection state is CONNECTED; in every other state it throws the
not-connected error, does not touch the device, and leaves the state
unchanged (src/adb.js lines 166-174). -/
theorem c7_run_command (st : Nat) (r : CallResult String) :
    ((runCommand st r).dispatched = true ↔ st = CONNECTED) ∧
    (runCommand st r).finalState = st ∧
    (st ≠ CONNECTED →
      (runCommand st r).result = Except.error notConnectedError ∧
      (runCommand st r).dispatched = false) := by
  unfold runCommand
  by_cases h : st = 4
  · subst h
    cases r <;> simp [CONNECTED]
  · simp [CONNECTED, h]

/-- C7 witness: the statement at the concrete state WAIT_FOR_AUTH. -/
theorem c7_witness :
    (runCommand WAIT_FOR_AUTH (CallResult.ok "output")).result =
      Except.error notConnectedError ∧
    (runCommand WAIT_FOR_AUTH (CallResult.ok "output")).dispatched = false :=
  (c7_run_command WAIT_FOR_AUTH (CallResult.ok "output")).2.2 (by decide)

/-! ## Claim C8 -/

/-- The acceptance condition of the interface loop: exactly two endpoints and
the ADB class/subclass/protocol descriptor triple. -/
def isAdbIface (i : Iface) : Prop :=
  i.endpoints.length = 2 ∧
  i.descriptor.bInterfaceClass = ADB_CLASS ∧
  i.descriptor.bInterfaceSubClass = ADB_SUBCLASS ∧
  i.descriptor.bInterfaceProtocol = ADB_PROTOCOL

instance (i : Iface) : Decidable (isAdbIface i) := by
  unfold isAdbIface
  infer_instance

/-- Whatever the loop returns satisfies the acceptance condition and comes
from the list. -/
lemma ifaceLoop_some_adb {l : List Iface} {i : Iface} (h : ifaceLoop l = some i) :
    isAdbIface i ∧ i ∈ l := by
  induction l with
  | nil => simp [ifaceLoop] at h
  | cons a rest ih =>
    unfold ifaceLoop at h
    split_ifs at h with h1 h2
    · exact ⟨(ih h).1, List.mem_cons_of_mem a (ih h).2⟩
    · exact ⟨(ih h).1, List.mem_cons_of_mem a (ih h).2⟩
    · push_neg at h1 h2
      cases h
      exact ⟨⟨h1, h2.1, h2.2.1, h2.2.2⟩, List.mem_cons_self _ _⟩

/-- When no interface of the list is acceptable the loop returns null. -/
lemma ifaceLoop_none_of {l : List Iface} (h : ∀ i ∈ l, ¬ isAdbIface i) :
    ifaceLoop l = none := by
  induction l with
  | nil => rfl
  | cons a rest ih =>
    have ha : ¬ isAdbIface a := h a (List.mem_cons_self a rest)
    have hrest : ifaceLoop rest = none :=
      ih fun i hi => h i (List.mem_cons_of_mem a hi)
    unfold ifaceLoop
    split_ifs with h1 h2
    · exact hrest
    · exact hrest
    · push_neg at h1 h2
      exact absurd ⟨h1, h2.1, h2.2.1, h2.2.2⟩ ha

/-- C8: _getAdbInterface returns an interface only if that interface has
exactly two endpoints and its descriptor carries bInterfaceClass 0xFF,
bInterfaceSubClass 0x42 and bInterfaceProtocol 0x01; when no interface of
the device satisfies all of these conditions it returns null (src/adb.js
lines 67-92). -/
theorem c8_get_adb_interface :
    (∀ d i, _getAdbInterface d = some i →
      i.endpoints.length = 2 ∧
      i.descriptor.bInterfaceClass = ADB_CLASS ∧
      i.descriptor.bInterfaceSubClass = ADB_SUBCLASS ∧
      i.descriptor.bInterfaceProtocol = ADB_PROTOCOL) ∧
    (∀ d, (∀ i ∈ d.interfaces.getD [], ¬ isAdbIface i) → _getAdbInterface d = none) := by
  constructor
  · intro d i h
    unfold _getAdbInterface at h
    rcases hd : d.interfaces with _ | ifaces
    · rw [hd] at h
      simp at h
    · rw [hd] at h
      split_ifs at h with hdesc
      exact (ifaceLoop_some_adb h).1
  · intro d h
    unfold _getAdbInterface
    rcases hd : d.interfaces with _ | ifaces
    · rfl
    · rw [hd] at h
      simp only [Option.getD_some] at h
      split_ifs with hdesc
      · exact ifaceLoop_none_of h
      · rfl

/-- A correct ADB interface. -/
def goodIface : Iface := ⟨[⟨0x81⟩, ⟨0x01⟩], ⟨0xFF, 0x42, 0x01⟩⟩

/-- An interface with the right descriptor but three endpoints. -/
def badIface : Iface := ⟨[⟨0x81⟩, ⟨0x01⟩, ⟨0x82⟩], ⟨0xFF, 0x42, 0x01⟩⟩

/-- A device exposing only the correct ADB interface. -/
def goodDevice : UsbDevice := ⟨some [goodIface], some ⟨0x18D1⟩, some (), "emulator"⟩

/-- An allow-listed device exposing only the three-endpoint interface. -/
def badDevice : UsbDevice := ⟨some [badIface], some ⟨0x18D1⟩, some (), "gadget"⟩

/-- A device whose vendor id is outside the allow-list. -/
def strangeDevice : UsbDevice := ⟨some [goodIface], some ⟨0xABCD⟩, some (), "mouse"⟩

/-- C8 witness: the returned interface of a concrete device satisfies the
descriptor conditions, and a concrete device with no acceptable interface
yields null. -/
theorem c8_witness :
    (goodIface.endpoints.length = 2 ∧
      goodIface.descriptor.bInterfaceClass = ADB_CLASS ∧
      goodIface.descriptor.bInterfaceSubClass = ADB_SUBCLASS ∧
      goodIface.descriptor.bInterfaceProtocol = ADB_PROTOCOL) ∧
    _getAdbInterface badDevice = none :=
  ⟨c8_get_adb_interface.1 goodDevice goodIface rfl,
    c8_get_adb_interface.2 badDevice (by decide)⟩

/-! ## Claim C9 -/

/-- Every device the discovery loop probed with _getAdbInterface has a
descriptor whose vendor id is in the allow-list, and every found entry keeps
the interface that probe returned. -/
lemma findLoop_ok_probed {v : List Nat} {ds probed : List UsbDevice}
    {found : List FoundDevice}
    (h : findLoop v ds = Except.ok (probed, found)) :
    (∀ d ∈ probed, ∃ dd, d.deviceDescriptor = some dd ∧ dd.idVendor ∈ v) ∧
    (∀ f ∈ found, _getAdbInterface f.device = some f.deviceInterface) := by
  induction ds generalizing probed found with
  | nil =>
    simp only [findLoop, Except.ok.injEq, Prod.mk.injEq] at h
    obtain ⟨hp, hf⟩ := h
    subst hp
    subst hf
    exact ⟨by simp, by simp⟩
  | cons d ds ih =>
    unfold findLoop at h
    split at h
    · simp at h
    · rename_i dd hdd
      split_ifs at h with hv
      · split at h
        · simp at h
        · rename_i probed2 found2 hrec
          split at h
          · rename_i iface hif
            simp only [Except.ok.injEq, Prod.mk.injEq] at h
            obtain ⟨hp, hf⟩ := h
            subst hp
            subst hf
            constructor
            · intro x hx
              rcases List.mem_cons.mp hx with hx1 | hx2
              · subst hx1
                exact ⟨dd, hdd, hv⟩
              · exact (ih hrec).1 x hx2
            · intro f hfm
              rcases List.mem_cons.mp hfm with hf1 | hf2
              · subst hf1
                exact hif
              · exact (ih hrec).2 f hf2
          · rename_i hif
            simp only [Except.ok.injEq, Prod.mk.injEq] at h
            obtain ⟨hp, hf⟩ := h
            subst hp
            subst hf
            constructor
            · intro x hx
              rcases List.mem_cons.mp hx with hx1 | hx2
              · subst hx1
                exact ⟨dd, hdd, hv⟩
              · exact (ih hrec).1 x hx2
            · intro f hfm
              exact (ih hrec).2 f hfm
      · exact ih h

/-- C9: findAdbDevices throws the no-USB-devices error when the enumerated
device list is empty and the no-ADB-devices error when no enumerated device
both carries an allow-listed vendor id and exposes an ADB interface; devices
whose vendor id is outside the allow-list are never probed for an interface,
so every probed device is allow-listed (src/adb.js lines 40-63). -/
theorem c9_find_adb_devices :
    (∀ v, findAdbDevices v [] = Except.error noUsbError) ∧
    (∀ v ds probed, ds ≠ [] → findLoop v ds = Except.ok (probed, []) →
      findAdbDevices v ds = Except.error noAdbError) ∧
    (∀ v ds probed found, findLoop v ds = Except.ok (probed, found) →
      ∀ d ∈ probed, ∃ dd, d.deviceDescriptor = some dd ∧ dd.idVendor ∈ v) := by
  refine ⟨?_, ?_, ?_⟩
  · intro v
    rfl
  · intro v ds probed hne h
    unfold findAdbDevices
    rw [if_neg (by simpa using hne), h]
    rfl
  · intro v ds probed found h
    exact (findLoop_ok_probed h).1

/-- C9 witness: the empty list throws, a list holding one allow-listed device
without an ADB interface and one device outside the allow-list throws the
no-ADB-devices error, and the only probed device of that run is
allow-listed. -/
theorem c9_witness :
    findAdbDevices [0x18D1] [] = Except.error noUsbError ∧
    findAdbDevices [0x18D1] [badDevice, strangeDevice] = Except.error noAdbError ∧
    (∀ d ∈ [badDevice], ∃ dd, d.deviceDescriptor = some dd ∧ dd.idVendor ∈ [0x18D1]) :=
  ⟨c9_find_adb_devices.1 [0x18D1],
    c9_find_adb_devices.2.1 [0x18D1] [badDevice, strangeDevice] [badDevice]
      (by simp) (by rfl),
    c9_find_adb_devices.2.2 [0x18D1] [badDevice, strangeDevice] [badDevice] []
      (by rfl)⟩

/-! ## Claim C10 -/

/-- The only iteration of the connect() loop that returns control to the
caller is the CONNECTED arm, and it reports state 4. -/
lemma connectStep_ret_eq {o : DevOracle} {st : Nat} {pv : PktVar} {s : Nat}
    (h : connectStep o st pv = StepOut.ret s) : st = 4 ∧ s = 4 := by
  rcases st with _ | _ | _ | _ | _ | n
  all_goals simp [connectStep] at h
  all_goals try (repeat' split at h)
  all_goals simp_all

/-- A run of the connect() loop that returns normally does so in state 4. -/
lemma connectRun_returned {os : List DevOracle} {st : Nat} {pv : PktVar} {s : Nat}
    (h : connectRun os st pv = ConnectOutcome.returned s) : s = 4 := by
  induction os generalizing st pv with
  | nil => simp [connectRun] at h
  | cons o os ih =>
    unfold connectRun at h
    cases hs : connectStep o st pv with
    | next s2 q =>
      rw [hs] at h
      exact ih h
    | ret s2 =>
      rw [hs] at h
      simp at h
      have h2 := (connectStep_ret_eq hs).2
      omega
    | thrown e =>
      rw [hs] at h
      simp at h

/-- C10: whenever connect() returns normally the FSM state is CONNECTED;
no iteration hands control back in any other state, every non-CONNECTED
state (an unrecognised integer included) re-entering the loop (src/adb.js
lines 96-164). -/
theorem c10_connect_returns_only_connected :
    (∀ os st pv s, connectRun os st pv = ConnectOutcome.returned s → s = CONNECTED) ∧
    (∀ o st pv s, connectStep o st pv = StepOut.ret s → st = CONNECTED ∧ s = CONNECTED) := by
  constructor
  · intro os st pv s h
    simpa [CONNECTED] using connectRun_returned h
  · intro o st pv s h
    simpa [CONNECTED] using connectStep_ret_eq h

/-- C10 witness: the statement at a concrete one-iteration run starting in
CONNECTED. -/
theorem c10_witness :
    CONNECTED = CONNECTED ∧ (CONNECTED = CONNECTED ∧ CONNECTED = CONNECTED) :=
  ⟨c10_connect_returns_only_connected.1 [happyOracle] CONNECTED PktVar.undef CONNECTED rfl,
    c10_connect_returns_only_connected.2 happyOracle CONNECTED PktVar.undef CONNECTED rfl⟩

end NodeAdb
